import Mathlib

/-!
Shallow embedding of an AWS Lambda (src/index.mjs) that scans newly uploaded S3
objects with a (mock) Crowdstrike scanner and, for malicious findings, correlates
the uploader via CloudTrail, deletes the object from S3 and sends an SES
notification.  External collaborators (scan, CloudTrail LookupEvents, S3
DeleteObject, SES SendEmail) are modelled as oracle functions that each run is
parameterised by; JavaScript exceptions are modelled with Except, possibly
undefined JavaScript values with Option, and ISO-8601 timestamps by their
epoch-millisecond value.  The handler additionally returns a trace of the
external calls it made, in order to state which calls occur on each path.
-/

/-- A JavaScript error value; only its message is observable in this model. -/
structure JsError where
  msg : String
deriving Repr, DecidableEq

/-- Result of the Crowdstrike scan (src/index.mjs:37-44). -/
structure ScanResult where
  isMalicious : Bool
  details : String
deriving Repr, DecidableEq

/-- Whether a needle list occurs as a prefix of a haystack list. -/
def startsWithL : List Char → List Char → Bool
  | [], _ => true
  | _ :: _, [] => false
  | a :: as, b :: bs => a == b && startsWithL as bs

/-- Whether a needle occurs contiguously anywhere in a haystack, as
JavaScript String.prototype.includes does. -/
def containsSub (needle : List Char) : List Char → Bool
  | [] => startsWithL needle []
  | c :: rest => startsWithL needle (c :: rest) || containsSub needle rest

/-- The mock scanner of src/index.mjs:15-45: flags the object as malicious
exactly when the lower-cased key contains the substring "malicious".  The
handler is parameterised by a scan oracle so that scanner failures can be
modelled; this definition is the concrete oracle the repository ships. -/
def scanWithCrowdstrike (_bucket key : String) : ScanResult :=
  if containsSub "malicious".toList key.toLower.toList then
    { isMalicious := true, details := "Simulated detection: EICAR Test File" }
  else
    { isMalicious := false, details := "Scan complete. No threats found." }

/-- requestParameters of a parsed CloudTrail event (fields may be absent). -/
structure RequestParameters where
  bucketName : Option String
  key : Option String
deriving Repr, DecidableEq

/-- userIdentity of a parsed CloudTrail event (fields may be absent). -/
structure UserIdentity where
  arn : Option String
  principalId : Option String
deriving Repr, DecidableEq

/-- A parsed CloudTrail event (JSON.parse of event.CloudTrailEvent at
src/index.mjs:67).  requestParameters may be null/absent, which the source
guards against with a truthiness check. -/
structure CloudTrailEvent where
  requestParameters : Option RequestParameters
  userIdentity : UserIdentity
  sourceIPAddress : Option String
  eventTime : Option Int
deriving Repr, DecidableEq

/-- The LookupEvents query built at src/index.mjs:53-60. -/
structure LookupQuery where
  attributeKey : String
  attributeValue : String
  startTime : Int
  endTime : Int
deriving Repr, DecidableEq

/-- The uploader details object returned by getUploadDetailsFromCloudTrail
(src/index.mjs:71-87).  Fields are Option because the matched CloudTrail
event's fields may be absent, in which case JavaScript stores undefined. -/
structure UploadDetails where
  user : Option String
  ipAddress : Option String
  uploadTime : Option Int
deriving Repr, DecidableEq

/-- JavaScript a || b on possibly-undefined strings: a unless a is undefined
or the empty string (both falsy), in which case b (src/index.mjs:72). -/
def jsOrStr (a b : Option String) : Option String :=
  match a with
  | some s => if s == "" then b else some s
  | none => b

/-- The defaults returned when no matching CloudTrail event is found or the
lookup fails (src/index.mjs:83-87). -/
def sentinelIdentity (eventTime : Int) : UploadDetails :=
  { user := some "Not Found (CloudTrail Latency)",
    ipAddress := some "Not Found",
    uploadTime := some eventTime }

/-- The details extracted from a matched CloudTrail event
(src/index.mjs:71-75). -/
def eventDetails (e : CloudTrailEvent) : UploadDetails :=
  { user := jsOrStr e.userIdentity.arn e.userIdentity.principalId,
    ipAddress := e.sourceIPAddress,
    uploadTime := e.eventTime }

/-- The client-side filter of src/index.mjs:70: the event's requestParameters
must be truthy and its bucketName and key must strictly equal the handler's
bucket and key. -/
def matchesObject (bucket key : String) (e : CloudTrailEvent) : Bool :=
  match e.requestParameters with
  | none => false
  | some rp => rp.bucketName == some bucket && rp.key == some key

/-- The query parameters of src/index.mjs:53-60: EventName = PutObject over
the window from fifteen minutes before the event time up to the event time
(times in epoch milliseconds). -/
def mkLookupQuery (eventTime : Int) : LookupQuery :=
  { attributeKey := "EventName",
    attributeValue := "PutObject",
    startTime := eventTime - 15 * 60 * 1000,
    endTime := eventTime }

/-- The loop of src/index.mjs:66-77: the first event in the order received
whose request parameters match yields the details; otherwise the sentinel. -/
def lookupResult (bucket key : String) (eventTime : Int)
    (events : List CloudTrailEvent) : UploadDetails :=
  match events.find? (matchesObject bucket key) with
  | some e => eventDetails e
  | none => sentinelIdentity eventTime

/-- getUploadDetailsFromCloudTrail (src/index.mjs:48-88), parameterised by the
CloudTrail send oracle.  The try/catch swallows lookup errors and falls
through to the sentinel, so the function never raises; it also returns the
query it issued so theorems can speak about the window.  (JSON.parse of each
event is folded into the oracle: the oracle returns already-parsed events.) -/
def getUploadDetailsFromCloudTrail
    (lookupO : LookupQuery → Except JsError (List CloudTrailEvent))
    (bucket key : String) (eventTime : Int) : LookupQuery × UploadDetails :=
  let q := mkLookupQuery eventTime
  match lookupO q with
  | Except.ok events => (q, lookupResult bucket key eventTime events)
  | Except.error _ => (q, sentinelIdentity eventTime)

/-- Numeric value of a hex digit character, if it is one. -/
def hexDigitVal (c : Char) : Option Nat :=
  if ('0' ≤ c ∧ c ≤ '9') then some (c.toNat - '0'.toNat)
  else if ('a' ≤ c ∧ c ≤ 'f') then some (c.toNat - 'a'.toNat + 10)
  else if ('A' ≤ c ∧ c ≤ 'F') then some (c.toNat - 'A'.toNat + 10)
  else none

/-- Percent-decoding as performed by decodeURIComponent, modelled at the level
of single code units: a percent sign followed by two hex digits decodes to the
character with that code, any other character passes through, and a malformed
escape raises (none), as decodeURIComponent throws URIError.  (Multi-byte
UTF-8 escape sequences are out of scope: every key exercised here is in the
single-byte range, where this model agrees with decodeURIComponent.) -/
def percentDecode : List Char → Option (List Char)
  | [] => some []
  | c :: rest =>
    if c = '%' then
      match rest with
      | x :: y :: rest2 =>
        match hexDigitVal x, hexDigitVal y with
        | some hx, some hy =>
          (percentDecode rest2).map (fun r => Char.ofNat (hx * 16 + hy) :: r)
        | _, _ => none
      | _ => none
    else
      (percentDecode rest).map (fun r => c :: r)

/-- The replace of src/index.mjs:97: every literal plus becomes a space. -/
def replacePlus (l : List Char) : List Char :=
  l.map (fun c => if c = '+' then ' ' else c)

/-- The key normalisation of src/index.mjs:97:
decodeURIComponent(record.s3.object.key.replace plus-to-space). -/
def decodeKey (s : String) : Option String :=
  (percentDecode (replacePlus s.toList)).map List.asString

/-- The hex digit character for a value below sixteen. -/
def hexDigit (n : Nat) : Char :=
  if n < 10 then Char.ofNat ('0'.toNat + n) else Char.ofNat ('A'.toNat + n - 10)

/-- Modelled from the spec: the ingestion interface delivers the object key
"percent-encoded, with literal + representing space" (spec section 6); the
encoder itself lives in the S3 event source, outside this repository.  A space
is sent as a plus, and the metacharacters plus and percent are sent as their
two-digit percent escapes; every other character is sent literally. -/
def encodeChar (c : Char) : List Char :=
  if c = ' ' then ['+']
  else if c = '+' ∨ c = '%' then ['%', hexDigit (c.toNat / 16), hexDigit (c.toNat % 16)]
  else [c]

/-- Modelled from the spec: the whole-key encoding applied by the event
source, character by character. -/
def encodeKey (s : String) : String :=
  (s.toList.flatMap encodeChar).asString

/-- The bucket element of an S3 event record. -/
structure S3Bucket where
  name : String
deriving Repr, DecidableEq

/-- The object element of an S3 event record. -/
structure S3Object where
  key : String
deriving Repr, DecidableEq

/-- The s3 element of an S3 event record. -/
structure S3Entity where
  bucket : S3Bucket
  object : S3Object
deriving Repr, DecidableEq

/-- One record of the S3 notification event (eventTime in epoch ms). -/
structure S3EventRecord where
  s3 : S3Entity
  eventTime : Int
deriving Repr, DecidableEq

/-- The S3 notification event delivered to the handler. -/
structure S3Event where
  Records : List S3EventRecord
deriving Repr, DecidableEq

/-- The environment variables the handler reads. -/
structure Env where
  notificationEmailTo : String
  notificationEmailFrom : String
deriving Repr, DecidableEq

/-- The SES SendEmail command built at src/index.mjs:133-140. -/
structure EmailCommand where
  toAddresses : List String
  source : String
  subject : String
  body : String
deriving Repr, DecidableEq

/-- JavaScript template interpolation of a possibly-undefined string. -/
def jsShowOptStr : Option String → String
  | none => "undefined"
  | some s => s

/-- JavaScript template interpolation of a possibly-undefined timestamp. -/
def jsShowOptTime : Option Int → String
  | none => "undefined"
  | some n => toString n

/-- The email body template of src/index.mjs:119-131. -/
def emailBody (bucket key details : String) (d : UploadDetails) : String :=
  "\nA file uploaded to the S3 bucket \x27" ++ bucket ++
  "\x27 was identified as malicious by Crowdstrike and has been automatically deleted.\n\nPlease review the details below:\n\n- **File Name**: " ++
  key ++ "\n- **Scan Details**: " ++ details ++
  "\n- **Uploader Principal**: " ++ jsShowOptStr d.user ++
  "\n- **Source IP Address**: " ++ jsShowOptStr d.ipAddress ++
  "\n- **Upload Timestamp**: " ++ jsShowOptTime d.uploadTime ++
  "\n\nThis action was performed automatically by the S3 security scanning system.\n            "

/-- The SES command of src/index.mjs:133-140. -/
def mkEmailCommand (env : Env) (bucket key : String) (res : ScanResult)
    (d : UploadDetails) : EmailCommand :=
  { toAddresses := [env.notificationEmailTo],
    source := env.notificationEmailFrom,
    subject := "[SECURITY ALERT] Malicious File Deleted from S3",
    body := emailBody bucket key res.details d }

/-- The handler's return body (src/index.mjs:149): JSON.stringify of
message "Scan complete." and the status string. -/
def responseBody (isMalicious : Bool) : String :=
  "\x7b\"message\":\"Scan complete.\",\"status\":\"" ++
  (if isMalicious then "Malicious" else "Clean") ++ "\"\x7d"

/-- The handler's successful return value (src/index.mjs:147-150). -/
structure HandlerResponse where
  statusCode : Nat
  body : String
deriving Repr, DecidableEq

/-- The external calls a handler run makes, each in the order issued. -/
structure Trace where
  scanCalls : List (String × String) := []
  lookupCalls : List LookupQuery := []
  deleteCalls : List (String × String) := []
  notifyCalls : List EmailCommand := []
deriving Repr, DecidableEq

/-- The external collaborators the handler calls, as oracles. -/
structure Collaborators where
  scanO : String → String → Except JsError ScanResult
  lookupO : LookupQuery → Except JsError (List CloudTrailEvent)
  deleteO : String → String → Except JsError Unit
  notifyO : EmailCommand → Except JsError Unit

/-- The TypeError raised when event.Records is empty: record is undefined and
record.s3 at src/index.mjs:96 throws before the try block. -/
def typeErrorRecordUndefined : JsError :=
  { msg := "TypeError: Cannot read properties of undefined" }

/-- The URIError raised by decodeURIComponent on a malformed escape at
src/index.mjs:97, also before the try block. -/
def uriErrorMalformed : JsError :=
  { msg := "URIError: URI malformed" }

/-- The Lambda handler (src/index.mjs:92-157).  Only Records[0] is read; the
key is normalised; the scan runs inside the try block; on a malicious verdict
the CloudTrail lookup, the S3 delete and the SES notification follow in
sequence, and any error thrown inside the try block is logged and rethrown by
the catch (src/index.mjs:152-156), so it propagates to the invoker. -/
def handler (c : Collaborators) (env : Env) (event : S3Event) :
    Trace × Except JsError HandlerResponse :=
  match event.Records.head? with
  | none => ({}, Except.error typeErrorRecordUndefined)
  | some record =>
    let bucket := record.s3.bucket.name
    match decodeKey record.s3.object.key with
    | none => ({}, Except.error uriErrorMalformed)
    | some key =>
      match c.scanO bucket key with
      | Except.error e => ({ scanCalls := [(bucket, key)] }, Except.error e)
      | Except.ok scanResult =>
        if scanResult.isMalicious then
          let lookup := getUploadDetailsFromCloudTrail c.lookupO bucket key record.eventTime
          match c.deleteO bucket key with
          | Except.error e =>
            ({ scanCalls := [(bucket, key)], lookupCalls := [lookup.1],
               deleteCalls := [(bucket, key)] }, Except.error e)
          | Except.ok _ =>
            let emailCommand := mkEmailCommand env bucket key scanResult lookup.2
            match c.notifyO emailCommand with
            | Except.error e =>
              ({ scanCalls := [(bucket, key)], lookupCalls := [lookup.1],
                 deleteCalls := [(bucket, key)], notifyCalls := [emailCommand] },
               Except.error e)
            | Except.ok _ =>
              ({ scanCalls := [(bucket, key)], lookupCalls := [lookup.1],
                 deleteCalls := [(bucket, key)], notifyCalls := [emailCommand] },
               Except.ok { statusCode := 200, body := responseBody true })
        else
          ({ scanCalls := [(bucket, key)] },
           Except.ok { statusCode := 200, body := responseBody false })

/-- Modelled from the spec: the storage backend's delete semantics.  The
repository only issues a DeleteObjectCommand (src/index.mjs:113-114); the S3
backend that answers it is an external collaborator, not in src/.  Per spec
sections 4.3 and 6, delete-by-bucket-and-key treats an already-absent object
as success and fails only on a genuine error such as permission denial, which
this model represents by a set of denied objects. -/
structure StorageState where
  objects : List (String × String) := []
  denied : List (String × String) := []
deriving Repr, DecidableEq

/-- Modelled from the spec: executing the delete against the storage model.
Denied objects raise; otherwise the object is removed if present and the call
succeeds whether or not the object existed. -/
def deleteObject (st : StorageState) (bucket key : String) :
    Except JsError StorageState :=
  if st.denied.contains (bucket, key) then
    Except.error { msg := "AccessDenied" }
  else
    Except.ok { st with objects := st.objects.filter (fun e => !(e == (bucket, key))) }

/-! Helper lemmas. -/

/-- replacePlus distributes over list append. -/
theorem replacePlus_append (a b : List Char) :
    replacePlus (a ++ b) = replacePlus a ++ replacePlus b :=
  List.map_append _ a b

/-- percentDecode passes a non-percent character through. -/
theorem percentDecode_cons_ne (c : Char) (h : ¬ c = '%') (l : List Char) :
    percentDecode (c :: l) = (percentDecode l).map (fun r => c :: r) := by
  rw [percentDecode.eq_def]
  simp [h]

/-- Decoding the encoding of a single character, in front of any tail. -/
theorem percentDecode_encodeChar (c : Char) (rest : List Char) :
    percentDecode (replacePlus (encodeChar c) ++ rest)
      = (percentDecode rest).map (fun r => c :: r) := by
  by_cases hsp : c = ' '
  · subst hsp
    have h1 : replacePlus (encodeChar ' ') = [' '] := by decide
    rw [h1]
    exact percentDecode_cons_ne ' ' (by decide) rest
  · by_cases hpl : c = '+'
    · subst hpl
      have h1 : replacePlus (encodeChar '+') = ['%', '2', 'B'] := by decide
      rw [h1]
      show percentDecode ('%' :: '2' :: 'B' :: rest) = _
      simp +decide [percentDecode, hexDigitVal]
    · by_cases hpc : c = '%'
      · subst hpc
        have h1 : replacePlus (encodeChar '%') = ['%', '2', '5'] := by decide
        rw [h1]
        show percentDecode ('%' :: '2' :: '5' :: rest) = _
        simp +decide [percentDecode, hexDigitVal]
      · have h1 : encodeChar c = [c] := by
          simp [encodeChar, hsp, hpl, hpc]
        have h2 : replacePlus [c] = [c] := by
          simp [replacePlus, hpl]
        rw [h1, h2]
        exact percentDecode_cons_ne c hpc rest

/-- Decoding the encoding of a whole character list recovers it. -/
theorem percentDecode_replacePlus_encode (l : List Char) :
    percentDecode (replacePlus (l.flatMap encodeChar)) = some l := by
  induction l with
  | nil => rfl
  | cons c tl ih =>
    rw [List.flatMap_cons, replacePlus_append, percentDecode_encodeChar, ih]
    rfl

/-- Converting a character list to a string and back is the identity. -/
theorem toList_asString (l : List Char) : (List.asString l).toList = l := rfl

/-- Converting a string to a character list and back is the identity. -/
theorem asString_toList (s : String) : s.toList.asString = s := by
  cases s
  rfl

/-- find? returns the element at the first index satisfying the predicate. -/
theorem find?_eq_get_first {α : Type} (p : α → Bool) :
    ∀ (l : List α) (i : Fin l.length), p (l.get i) = true →
      (∀ j : Fin l.length, (j : Nat) < (i : Nat) → p (l.get j) = false) →
      l.find? p = some (l.get i)
  | [], i, _, _ => absurd i.isLt (by simp)
  | a :: tl, ⟨0, _⟩, hp, _ => by
    simp only [List.get] at hp
    simp [List.find?, hp]
  | a :: tl, ⟨m + 1, hm⟩, hp, hmin => by
    have ha : p a = false := hmin ⟨0, Nat.succ_pos _⟩ (Nat.succ_pos _)
    have htl := find?_eq_get_first p tl ⟨m, Nat.lt_of_succ_lt_succ hm⟩ hp
      (fun j hj => hmin ⟨j.val + 1, Nat.succ_lt_succ j.isLt⟩ (Nat.succ_lt_succ hj))
    simp [List.find?, ha, htl]

/-- The query returned by getUploadDetailsFromCloudTrail is always the one it
built, whatever the lookup oracle answers. -/
theorem getUploadDetails_fst
    (lookupO : LookupQuery → Except JsError (List CloudTrailEvent))
    (bucket key : String) (t : Int) :
    (getUploadDetailsFromCloudTrail lookupO bucket key t).1 = mkLookupQuery t := by
  simp only [getUploadDetailsFromCloudTrail]
  cases lookupO (mkLookupQuery t) <;> rfl

/-! Claim theorems. -/

/-- C1: for every upload event whose scan result has isMalicious = false, the
handler makes no delete call and no notify call, and returns statusCode 200
with body "message: Scan complete., status: Clean" as serialised JSON. -/
theorem clean_scan_makes_no_remediation_calls
    (c : Collaborators) (env : Env) (rec : S3EventRecord) (rest : List S3EventRecord)
    (key : String) (res : ScanResult)
    (hk : decodeKey rec.s3.object.key = some key)
    (hs : c.scanO rec.s3.bucket.name key = Except.ok res)
    (hm : res.isMalicious = false) :
    (handler c env { Records := rec :: rest }).1.deleteCalls = [] ∧
    (handler c env { Records := rec :: rest }).1.notifyCalls = [] ∧
    (handler c env { Records := rec :: rest }).2 =
      Except.ok { statusCode := 200, body := "\x7b\"message\":\"Scan complete.\",\"status\":\"Clean\"\x7d" } := by
  have hh : handler c env { Records := rec :: rest } =
      ({ scanCalls := [(rec.s3.bucket.name, key)] },
       Except.ok { statusCode := 200, body := responseBody false }) := by
    simp [handler, hk, hs, hm]
  rw [hh]
  exact ⟨rfl, rfl, rfl⟩

/-- C1 witness: a concrete clean run. -/
theorem clean_scan_makes_no_remediation_calls_witness :
    (handler
      { scanO := fun _ _ => Except.ok { isMalicious := false, details := "Scan complete. No threats found." },
        lookupO := fun _ => Except.ok [],
        deleteO := fun _ _ => Except.ok (),
        notifyO := fun _ => Except.ok () }
      { notificationEmailTo := "sec@example.com", notificationEmailFrom := "noreply@example.com" }
      { Records := [ { s3 := { bucket := { name := "uploads" },
                               object := { key := "report.pdf" } },
                       eventTime := 1704103200000 } ] }).1.deleteCalls = [] ∧
    (handler
      { scanO := fun _ _ => Except.ok { isMalicious := false, details := "Scan complete. No threats found." },
        lookupO := fun _ => Except.ok [],
        deleteO := fun _ _ => Except.ok (),
        notifyO := fun _ => Except.ok () }
      { notificationEmailTo := "sec@example.com", notificationEmailFrom := "noreply@example.com" }
      { Records := [ { s3 := { bucket := { name := "uploads" },
                               object := { key := "report.pdf" } },
                       eventTime := 1704103200000 } ] }).1.notifyCalls = [] ∧
    (handler
      { scanO := fun _ _ => Except.ok { isMalicious := false, details := "Scan complete. No threats found." },
        lookupO := fun _ => Except.ok [],
        deleteO := fun _ _ => Except.ok (),
        notifyO := fun _ => Except.ok () }
      { notificationEmailTo := "sec@example.com", notificationEmailFrom := "noreply@example.com" }
      { Records := [ { s3 := { bucket := { name := "uploads" },
                               object := { key := "report.pdf" } },
                       eventTime := 1704103200000 } ] }).2 =
      Except.ok { statusCode := 200, body := "\x7b\"message\":\"Scan complete.\",\"status\":\"Clean\"\x7d" } :=
  clean_scan_makes_no_remediation_calls
    { scanO := fun _ _ => Except.ok { isMalicious := false, details := "Scan complete. No threats found." },
      lookupO := fun _ => Except.ok [],
      deleteO := fun _ _ => Except.ok (),
      notifyO := fun _ => Except.ok () }
    { notificationEmailTo := "sec@example.com", notificationEmailFrom := "noreply@example.com" }
    { s3 := { bucket := { name := "uploads" }, object := { key := "report.pdf" } },
      eventTime := 1704103200000 }
    []
    "report.pdf"
    { isMalicious := false, details := "Scan complete. No threats found." }
    rfl rfl rfl

/-- C2: for every upload event whose scan result has isMalicious = true and
whose delete and notify calls both succeed, the handler makes exactly one
delete call (with the event's bucket and decoded key) and exactly one notify
call, and returns statusCode 200 with body "message: Scan complete., status:
Malicious" as serialised JSON — the fully remediated outcome. -/
theorem malicious_scan_full_remediation
    (c : Collaborators) (env : Env) (rec : S3EventRecord) (rest : List S3EventRecord)
    (key : String) (res : ScanResult)
    (hk : decodeKey rec.s3.object.key = some key)
    (hs : c.scanO rec.s3.bucket.name key = Except.ok res)
    (hm : res.isMalicious = true)
    (hd : c.deleteO rec.s3.bucket.name key = Except.ok ())
    (hn : c.notifyO (mkEmailCommand env rec.s3.bucket.name key res
        (getUploadDetailsFromCloudTrail c.lookupO rec.s3.bucket.name key rec.eventTime).2)
      = Except.ok ()) :
    (handler c env { Records := rec :: rest }).1.deleteCalls = [(rec.s3.bucket.name, key)] ∧
    (handler c env { Records := rec :: rest }).1.notifyCalls =
      [mkEmailCommand env rec.s3.bucket.name key res
        (getUploadDetailsFromCloudTrail c.lookupO rec.s3.bucket.name key rec.eventTime).2] ∧
    (handler c env { Records := rec :: rest }).2 =
      Except.ok { statusCode := 200, body := "\x7b\"message\":\"Scan complete.\",\"status\":\"Malicious\"\x7d" } := by
  have hh : handler c env { Records := rec :: rest } =
      ({ scanCalls := [(rec.s3.bucket.name, key)],
         lookupCalls := [mkLookupQuery rec.eventTime],
         deleteCalls := [(rec.s3.bucket.name, key)],
         notifyCalls := [mkEmailCommand env rec.s3.bucket.name key res
           (getUploadDetailsFromCloudTrail c.lookupO rec.s3.bucket.name key rec.eventTime).2] },
       Except.ok { statusCode := 200, body := responseBody true }) := by
    simp [handler, hk, hs, hm, hd, hn, getUploadDetails_fst]
  rw [hh]
  exact ⟨rfl, rfl, rfl⟩

/-- C2 witness: the scenario of the spec, with a matching CloudTrail event for
alice from 203.0.113.5; the run deletes and notifies exactly once. -/
theorem malicious_scan_full_remediation_witness :
    (handler
      { scanO := fun _ _ => Except.ok { isMalicious := true, details := "Simulated detection: EICAR Test File" },
        lookupO := fun _ => Except.ok
          [ { requestParameters := some { bucketName := some "uploads", key := some "reports/malicious_invoice.pdf" },
              userIdentity := { arn := some "arn:aws:iam::123:user/alice", principalId := some "AIDA123" },
              sourceIPAddress := some "203.0.113.5", eventTime := some 1704103000000 } ],
        deleteO := fun _ _ => Except.ok (),
        notifyO := fun _ => Except.ok () }
      { notificationEmailTo := "sec@example.com", notificationEmailFrom := "noreply@example.com" }
      { Records := [ { s3 := { bucket := { name := "uploads" },
                               object := { key := "reports/malicious_invoice.pdf" } },
                       eventTime := 1704103200000 } ] }).1.deleteCalls = [("uploads", "reports/malicious_invoice.pdf")] ∧
    (handler
      { scanO := fun _ _ => Except.ok { isMalicious := true, details := "Simulated detection: EICAR Test File" },
        lookupO := fun _ => Except.ok
          [ { requestParameters := some { bucketName := some "uploads", key := some "reports/malicious_invoice.pdf" },
              userIdentity := { arn := some "arn:aws:iam::123:user/alice", principalId := some "AIDA123" },
              sourceIPAddress := some "203.0.113.5", eventTime := some 1704103000000 } ],
        deleteO := fun _ _ => Except.ok (),
        notifyO := fun _ => Except.ok () }
      { notificationEmailTo := "sec@example.com", notificationEmailFrom := "noreply@example.com" }
      { Records := [ { s3 := { bucket := { name := "uploads" },
                               object := { key := "reports/malicious_invoice.pdf" } },
                       eventTime := 1704103200000 } ] }).1.notifyCalls.length = 1 ∧
    (handler
      { scanO := fun _ _ => Except.ok { isMalicious := true, details := "Simulated detection: EICAR Test File" },
        lookupO := fun _ => Except.ok
          [ { requestParameters := some { bucketName := some "uploads", key := some "reports/malicious_invoice.pdf" },
              userIdentity := { arn := some "arn:aws:iam::123:user/alice", principalId := some "AIDA123" },
              sourceIPAddress := some "203.0.113.5", eventTime := some 1704103000000 } ],
        deleteO := fun _ _ => Except.ok (),
        notifyO := fun _ => Except.ok () }
      { notificationEmailTo := "sec@example.com", notificationEmailFrom := "noreply@example.com" }
      { Records := [ { s3 := { bucket := { name := "uploads" },
                               object := { key := "reports/malicious_invoice.pdf" } },
                       eventTime := 1704103200000 } ] }).2 =
      Except.ok { statusCode := 200, body := "\x7b\"message\":\"Scan complete.\",\"status\":\"Malicious\"\x7d" } := by
  have h := malicious_scan_full_remediation
    { scanO := fun _ _ => Except.ok { isMalicious := true, details := "Simulated detection: EICAR Test File" },
      lookupO := fun _ => Except.ok
        [ { requestParameters := some { bucketName := some "uploads", key := some "reports/malicious_invoice.pdf" },
            userIdentity := { arn := some "arn:aws:iam::123:user/alice", principalId := some "AIDA123" },
            sourceIPAddress := some "203.0.113.5", eventTime := some 1704103000000 } ],
      deleteO := fun _ _ => Except.ok (),
      notifyO := fun _ => Except.ok () }
    { notificationEmailTo := "sec@example.com", notificationEmailFrom := "noreply@example.com" }
    { s3 := { bucket := { name := "uploads" }, object := { key := "reports/malicious_invoice.pdf" } },
      eventTime := 1704103200000 }
    []
    "reports/malicious_invoice.pdf"
    { isMalicious := true, details := "Simulated detection: EICAR Test File" }
    rfl rfl rfl rfl rfl
  exact ⟨h.1, by rw [h.2.1]; rfl, h.2.2⟩

/-- C3 counterexample: a concrete run whose scan is malicious, whose delete
succeeds and whose notify fails does not end in a degraded non-fatal outcome:
the handler rethrows the notify error (src/index.mjs:152-156), so the run
fails; no success value is returned at all. -/
theorem notify_failure_fails_run_cex :
    (handler
      { scanO := fun _ _ => Except.ok { isMalicious := true, details := "Simulated detection: EICAR Test File" },
        lookupO := fun _ => Except.ok [],
        deleteO := fun _ _ => Except.ok (),
        notifyO := fun _ => Except.error { msg := "SES unavailable" } }
      { notificationEmailTo := "sec@example.com", notificationEmailFrom := "noreply@example.com" }
      { Records := [ { s3 := { bucket := { name := "uploads" },
                               object := { key := "reports/malicious_invoice.pdf" } },
                       eventTime := 1704103200000 } ] }).2 =
      Except.error { msg := "SES unavailable" } := by
  rfl

/-- C3 amended: for every run whose scan is malicious, whose delete call
succeeds and whose notify call fails, the handler has made the delete call and
exactly one notify attempt, and then propagates the notify error to its
invoker: the object is gone but the run fails with that error; no degraded
PartiallyRemediated success outcome exists in the code. -/
theorem notify_failure_propagates_after_delete
    (c : Collaborators) (env : Env) (rec : S3EventRecord) (rest : List S3EventRecord)
    (key : String) (res : ScanResult) (e : JsError)
    (hk : decodeKey rec.s3.object.key = some key)
    (hs : c.scanO rec.s3.bucket.name key = Except.ok res)
    (hm : res.isMalicious = true)
    (hd : c.deleteO rec.s3.bucket.name key = Except.ok ())
    (hn : c.notifyO (mkEmailCommand env rec.s3.bucket.name key res
        (getUploadDetailsFromCloudTrail c.lookupO rec.s3.bucket.name key rec.eventTime).2)
      = Except.error e) :
    (handler c env { Records := rec :: rest }).1.deleteCalls = [(rec.s3.bucket.name, key)] ∧
    (handler c env { Records := rec :: rest }).1.notifyCalls.length = 1 ∧
    (handler c env { Records := rec :: rest }).2 = Except.error e := by
  have hh : handler c env { Records := rec :: rest } =
      ({ scanCalls := [(rec.s3.bucket.name, key)],
         lookupCalls := [mkLookupQuery rec.eventTime],
         deleteCalls := [(rec.s3.bucket.name, key)],
         notifyCalls := [mkEmailCommand env rec.s3.bucket.name key res
           (getUploadDetailsFromCloudTrail c.lookupO rec.s3.bucket.name key rec.eventTime).2] },
       Except.error e) := by
    simp [handler, hk, hs, hm, hd, hn, getUploadDetails_fst]
  rw [hh]
  exact ⟨rfl, rfl, rfl⟩

/-- C3 amended witness: the concrete run of the counterexample, through the
amended theorem. -/
theorem notify_failure_propagates_after_delete_witness :
    (handler
      { scanO := fun _ _ => Except.ok { isMalicious := true, details := "Simulated detection: EICAR Test File" },
        lookupO := fun _ => Except.ok [],
        deleteO := fun _ _ => Except.ok (),
        notifyO := fun _ => Except.error { msg := "SES unavailable" } }
      { notificationEmailTo := "sec@example.com", notificationEmailFrom := "noreply@example.com" }
      { Records := [ { s3 := { bucket := { name := "uploads" },
                               object := { key := "reports/malicious_invoice.pdf" } },
                       eventTime := 1704103200000 } ] }).1.deleteCalls = [("uploads", "reports/malicious_invoice.pdf")] ∧
    (handler
      { scanO := fun _ _ => Except.ok { isMalicious := true, details := "Simulated detection: EICAR Test File" },
        lookupO := fun _ => Except.ok [],
        deleteO := fun _ _ => Except.ok (),
        notifyO := fun _ => Except.error { msg := "SES unavailable" } }
      { notificationEmailTo := "sec@example.com", notificationEmailFrom := "noreply@example.com" }
      { Records := [ { s3 := { bucket := { name := "uploads" },
                               object := { key := "reports/malicious_invoice.pdf" } },
                       eventTime := 1704103200000 } ] }).1.notifyCalls.length = 1 ∧
    (handler
      { scanO := fun _ _ => Except.ok { isMalicious := true, details := "Simulated detection: EICAR Test File" },
        lookupO := fun _ => Except.ok [],
        deleteO := fun _ _ => Except.ok (),
        notifyO := fun _ => Except.error { msg := "SES unavailable" } }
      { notificationEmailTo := "sec@example.com", notificationEmailFrom := "noreply@example.com" }
      { Records := [ { s3 := { bucket := { name := "uploads" },
                               object := { key := "reports/malicious_invoice.pdf" } },
                       eventTime := 1704103200000 } ] }).2 = Except.error { msg := "SES unavailable" } :=
  notify_failure_propagates_after_delete
    { scanO := fun _ _ => Except.ok { isMalicious := true, details := "Simulated detection: EICAR Test File" },
      lookupO := fun _ => Except.ok [],
      deleteO := fun _ _ => Except.ok (),
      notifyO := fun _ => Except.error { msg := "SES unavailable" } }
    { notificationEmailTo := "sec@example.com", notificationEmailFrom := "noreply@example.com" }
    { s3 := { bucket := { name := "uploads" }, object := { key := "reports/malicious_invoice.pdf" } },
      eventTime := 1704103200000 }
    []
    "reports/malicious_invoice.pdf"
    { isMalicious := true, details := "Simulated detection: EICAR Test File" }
    { msg := "SES unavailable" }
    rfl rfl rfl rfl rfl

/-- C5: for every run in which the scanner fails, or the scan is malicious and
the delete call fails, the handler propagates that very error to its invoker
and returns no success value at all — in particular no Clean or remediation
response; a scanner failure is never treated as a not-malicious verdict. -/
theorem scan_or_delete_failure_propagates
    (c : Collaborators) (env : Env) (rec : S3EventRecord) (rest : List S3EventRecord)
    (key : String) (e : JsError)
    (hk : decodeKey rec.s3.object.key = some key)
    (h : c.scanO rec.s3.bucket.name key = Except.error e ∨
         ∃ res, c.scanO rec.s3.bucket.name key = Except.ok res ∧ res.isMalicious = true ∧
                c.deleteO rec.s3.bucket.name key = Except.error e) :
    (handler c env { Records := rec :: rest }).2 = Except.error e ∧
    ∀ r : HandlerResponse, (handler c env { Records := rec :: rest }).2 ≠ Except.ok r := by
  have hh : (handler c env { Records := rec :: rest }).2 = Except.error e := by
    rcases h with hscan | ⟨res, hs, hm, hd⟩
    · simp [handler, hk, hscan]
    · simp [handler, hk, hs, hm, hd]
  refine ⟨hh, fun r hr => ?_⟩
  rw [hh] at hr
  exact Except.noConfusion hr

/-- C5 witness: a concrete run whose scanner fails propagates the scan error. -/
theorem scan_or_delete_failure_propagates_witness :
    (handler
      { scanO := fun _ _ => Except.error { msg := "ScanUnavailable" },
        lookupO := fun _ => Except.ok [],
        deleteO := fun _ _ => Except.ok (),
        notifyO := fun _ => Except.ok () }
      { notificationEmailTo := "sec@example.com", notificationEmailFrom := "noreply@example.com" }
      { Records := [ { s3 := { bucket := { name := "uploads" },
                               object := { key := "report.pdf" } },
                       eventTime := 1704103200000 } ] }).2 = Except.error { msg := "ScanUnavailable" } ∧
    ∀ r : HandlerResponse,
      (handler
        { scanO := fun _ _ => Except.error { msg := "ScanUnavailable" },
          lookupO := fun _ => Except.ok [],
          deleteO := fun _ _ => Except.ok (),
          notifyO := fun _ => Except.ok () }
        { notificationEmailTo := "sec@example.com", notificationEmailFrom := "noreply@example.com" }
        { Records := [ { s3 := { bucket := { name := "uploads" },
                                 object := { key := "report.pdf" } },
                         eventTime := 1704103200000 } ] }).2 ≠ Except.ok r :=
  scan_or_delete_failure_propagates
    { scanO := fun _ _ => Except.error { msg := "ScanUnavailable" },
      lookupO := fun _ => Except.ok [],
      deleteO := fun _ _ => Except.ok (),
      notifyO := fun _ => Except.ok () }
    { notificationEmailTo := "sec@example.com", notificationEmailFrom := "noreply@example.com" }
    { s3 := { bucket := { name := "uploads" }, object := { key := "report.pdf" } },
      eventTime := 1704103200000 }
    []
    "report.pdf"
    { msg := "ScanUnavailable" }
    rfl
    (Or.inl rfl)

/-- C10: the handler reads only the first element of the Records list — with
further records appended, the entire run (all calls made and the returned
value) is identical to the single-record run — and on an empty Records list it
raises a TypeError to the invoker with no external call made at all. -/
theorem handler_uses_only_first_record (c : Collaborators) (env : Env)
    (rec : S3EventRecord) (rest : List S3EventRecord) :
    handler c env { Records := rec :: rest } = handler c env { Records := [rec] } ∧
    handler c env { Records := [] } = ({}, Except.error typeErrorRecordUndefined) :=
  ⟨rfl, rfl⟩

/-- C7: the handler normalises the incoming object key by first replacing
every literal plus with a space and then percent-decoding, and this decoding
is a left inverse of the event source's encoding scheme: for every stored key
(in particular every key containing a plus or a percent escape), decoding its
encoding yields the literal key exactly. -/
theorem decodeKey_replace_then_decode_roundtrip :
    (∀ s : String, decodeKey s = (percentDecode (replacePlus s.toList)).map List.asString) ∧
    (∀ s : String, decodeKey (encodeKey s) = some s) := by
  refine ⟨fun s => rfl, fun s => ?_⟩
  show (percentDecode (replacePlus (encodeKey s).toList)).map List.asString = some s
  have h1 : (encodeKey s).toList = s.toList.flatMap encodeChar := rfl
  rw [h1, percentDecode_replacePlus_encode]
  show some (s.toList.asString) = some s
  rw [asString_toList]

/-- C4: for every run on a malicious object, if the audit query fails or
returns no event matching the bucket and key, the correlator returns the
sentinel identity — actor "Not Found (CloudTrail Latency)", source IP
"Not Found", upload timestamp the original event time — and the handler still
makes the delete call, and the notify call whenever the delete succeeds. -/
theorem audit_miss_degrades_to_sentinel_and_run_proceeds
    (c : Collaborators) (env : Env) (rec : S3EventRecord) (rest : List S3EventRecord)
    (key : String) (res : ScanResult)
    (hk : decodeKey rec.s3.object.key = some key)
    (hs : c.scanO rec.s3.bucket.name key = Except.ok res)
    (hm : res.isMalicious = true)
    (hfail : (∃ e, c.lookupO (mkLookupQuery rec.eventTime) = Except.error e) ∨
             (∃ evs, c.lookupO (mkLookupQuery rec.eventTime) = Except.ok evs ∧
                     evs.find? (matchesObject rec.s3.bucket.name key) = none)) :
    (getUploadDetailsFromCloudTrail c.lookupO rec.s3.bucket.name key rec.eventTime).2 =
      sentinelIdentity rec.eventTime ∧
    sentinelIdentity rec.eventTime =
      { user := some "Not Found (CloudTrail Latency)", ipAddress := some "Not Found",
        uploadTime := some rec.eventTime } ∧
    (handler c env { Records := rec :: rest }).1.deleteCalls = [(rec.s3.bucket.name, key)] ∧
    (c.deleteO rec.s3.bucket.name key = Except.ok () →
      (handler c env { Records := rec :: rest }).1.notifyCalls =
        [mkEmailCommand env rec.s3.bucket.name key res (sentinelIdentity rec.eventTime)]) := by
  have hsent : (getUploadDetailsFromCloudTrail c.lookupO rec.s3.bucket.name key rec.eventTime).2 =
      sentinelIdentity rec.eventTime := by
    rcases hfail with ⟨e, he⟩ | ⟨evs, hevs, hfind⟩
    · simp [getUploadDetailsFromCloudTrail, he]
    · simp [getUploadDetailsFromCloudTrail, hevs, lookupResult, hfind]
  refine ⟨hsent, rfl, ?_, ?_⟩
  · cases hd : c.deleteO rec.s3.bucket.name key with
    | error e => simp [handler, hk, hs, hm, hd]
    | ok u => cases u
              cases hn : c.notifyO (mkEmailCommand env rec.s3.bucket.name key res
                  (getUploadDetailsFromCloudTrail c.lookupO rec.s3.bucket.name key rec.eventTime).2) with
              | error e => simp [handler, hk, hs, hm, hd, hn]
              | ok v => cases v
                        simp [handler, hk, hs, hm, hd, hn]
  · intro hd
    cases hn : c.notifyO (mkEmailCommand env rec.s3.bucket.name key res
        (sentinelIdentity rec.eventTime)) with
    | error e => simp [handler, hk, hs, hm, hd, hsent, hn]
    | ok v => cases v
              simp [handler, hk, hs, hm, hd, hsent, hn]

/-- C4 witness: a concrete malicious run whose audit query raises; the
sentinel identity is used and both the delete and notify calls are made. -/
theorem audit_miss_degrades_to_sentinel_witness :
    (getUploadDetailsFromCloudTrail (fun _ => Except.error { msg := "AuditQueryFailed" })
      "uploads" "reports/malicious_invoice.pdf" 1704103200000).2 =
      sentinelIdentity 1704103200000 ∧
    sentinelIdentity 1704103200000 =
      { user := some "Not Found (CloudTrail Latency)", ipAddress := some "Not Found",
        uploadTime := some 1704103200000 } ∧
    (handler
      { scanO := fun _ _ => Except.ok { isMalicious := true, details := "Simulated detection: EICAR Test File" },
        lookupO := fun _ => Except.error { msg := "AuditQueryFailed" },
        deleteO := fun _ _ => Except.ok (),
        notifyO := fun _ => Except.ok () }
      { notificationEmailTo := "sec@example.com", notificationEmailFrom := "noreply@example.com" }
      { Records := [ { s3 := { bucket := { name := "uploads" },
                               object := { key := "reports/malicious_invoice.pdf" } },
                       eventTime := 1704103200000 } ] }).1.deleteCalls = [("uploads", "reports/malicious_invoice.pdf")] ∧
    ((fun (_ : String) (_ : String) => (Except.ok () : Except JsError Unit)) "uploads" "reports/malicious_invoice.pdf" = Except.ok () →
      (handler
        { scanO := fun _ _ => Except.ok { isMalicious := true, details := "Simulated detection: EICAR Test File" },
          lookupO := fun _ => Except.error { msg := "AuditQueryFailed" },
          deleteO := fun _ _ => Except.ok (),
          notifyO := fun _ => Except.ok () }
        { notificationEmailTo := "sec@example.com", notificationEmailFrom := "noreply@example.com" }
        { Records := [ { s3 := { bucket := { name := "uploads" },
                                 object := { key := "reports/malicious_invoice.pdf" } },
                         eventTime := 1704103200000 } ] }).1.notifyCalls =
        [mkEmailCommand
          { notificationEmailTo := "sec@example.com", notificationEmailFrom := "noreply@example.com" }
          "uploads" "reports/malicious_invoice.pdf"
          { isMalicious := true, details := "Simulated detection: EICAR Test File" }
          (sentinelIdentity 1704103200000)]) :=
  audit_miss_degrades_to_sentinel_and_run_proceeds
    { scanO := fun _ _ => Except.ok { isMalicious := true, details := "Simulated detection: EICAR Test File" },
      lookupO := fun _ => Except.error { msg := "AuditQueryFailed" },
      deleteO := fun _ _ => Except.ok (),
      notifyO := fun _ => Except.ok () }
    { notificationEmailTo := "sec@example.com", notificationEmailFrom := "noreply@example.com" }
    { s3 := { bucket := { name := "uploads" }, object := { key := "reports/malicious_invoice.pdf" } },
      eventTime := 1704103200000 }
    []
    "reports/malicious_invoice.pdf"
    { isMalicious := true, details := "Simulated detection: EICAR Test File" }
    rfl rfl rfl
    (Or.inl ⟨{ msg := "AuditQueryFailed" }, rfl⟩)

/-- C6: the modelled storage delete is idempotent: deleting an object that is
absent (and not permission-denied) succeeds, and after any successful delete a
repeat delete of the same bucket and key succeeds again and leaves the store
unchanged — delete of delete has the same observable success as one delete. -/
theorem deleteObject_absent_succeeds_and_idempotent
    (st : StorageState) (bucket key : String)
    (habs : st.objects.contains (bucket, key) = false)
    (hperm : st.denied.contains (bucket, key) = false) :
    (∃ st2, deleteObject st bucket key = Except.ok st2) ∧
    (∀ st2, deleteObject st bucket key = Except.ok st2 →
       ∃ st3, deleteObject st2 bucket key = Except.ok st3 ∧ st3 = st2) := by
  have hperm2 : (bucket, key) ∉ st.denied := by
    simpa using hperm
  have hok : deleteObject st bucket key =
      Except.ok { st with objects := st.objects.filter (fun e => !(e == (bucket, key))) } := by
    simp [deleteObject, hperm2]
  constructor
  · exact ⟨_, hok⟩
  · intro st2 h2
    rw [hok] at h2
    cases h2
    refine ⟨{ st with objects := (st.objects.filter (fun e => !(e == (bucket, key)))).filter (fun e => !(e == (bucket, key))) }, ?_, ?_⟩
    · simp [deleteObject, hperm2]
    · show StorageState.mk _ _ = StorageState.mk _ _
      congr 1
      rw [List.filter_filter]
      simp

/-- C6 witness: deleting a key absent from an empty store succeeds, and
repeating the delete succeeds with the same end state. -/
theorem deleteObject_absent_succeeds_and_idempotent_witness :
    (∃ st2, deleteObject { } "uploads" "reports/malicious_invoice.pdf" = Except.ok st2) ∧
    (∀ st2, deleteObject { } "uploads" "reports/malicious_invoice.pdf" = Except.ok st2 →
       ∃ st3, deleteObject st2 "uploads" "reports/malicious_invoice.pdf" = Except.ok st3 ∧ st3 = st2) :=
  deleteObject_absent_succeeds_and_idempotent { } "uploads" "reports/malicious_invoice.pdf" rfl rfl

/-- C8: for every correlate call, the audit query is issued for PutObject
events over exactly the window from fifteen minutes before the event time up
to the event time, and when the query succeeds the result is taken from the
first returned event, in the order received, whose request parameters match
both bucket and key — an event at a position with a matching predecessor is
never the one used. -/
theorem lookup_window_and_first_match
    (lookupO : LookupQuery → Except JsError (List CloudTrailEvent))
    (bucket key : String) (t : Int) (evs : List CloudTrailEvent)
    (hok : lookupO (mkLookupQuery t) = Except.ok evs) :
    (getUploadDetailsFromCloudTrail lookupO bucket key t).1 =
      { attributeKey := "EventName", attributeValue := "PutObject",
        startTime := t - 15 * 60 * 1000, endTime := t } ∧
    ∀ i : Fin evs.length, matchesObject bucket key (evs.get i) = true →
      (∀ j : Fin evs.length, (j : Nat) < (i : Nat) → matchesObject bucket key (evs.get j) = false) →
      (getUploadDetailsFromCloudTrail lookupO bucket key t).2 = eventDetails (evs.get i) := by
  refine ⟨getUploadDetails_fst lookupO bucket key t, fun i hi hmin => ?_⟩
  have hfind : evs.find? (matchesObject bucket key) = some (evs.get i) :=
    find?_eq_get_first (matchesObject bucket key) evs i hi hmin
  simp [getUploadDetailsFromCloudTrail, hok, lookupResult, hfind]

/-- C8 witness: a concrete query with two returned events of which only the
second matches; the window bounds are as specified and the second event, the
first matching one, supplies the details. -/
theorem lookup_window_and_first_match_witness :
    (getUploadDetailsFromCloudTrail
      (fun _ => Except.ok
        [ { requestParameters := some { bucketName := some "other", key := some "other.txt" },
            userIdentity := { arn := some "arn:aws:iam::123:user/bob", principalId := some "AIDB" },
            sourceIPAddress := some "198.51.100.7", eventTime := some 1704102900000 },
          { requestParameters := some { bucketName := some "uploads", key := some "reports/malicious_invoice.pdf" },
            userIdentity := { arn := some "arn:aws:iam::123:user/alice", principalId := some "AIDA" },
            sourceIPAddress := some "203.0.113.5", eventTime := some 1704103000000 } ])
      "uploads" "reports/malicious_invoice.pdf" 1704103200000).1 =
      { attributeKey := "EventName", attributeValue := "PutObject",
        startTime := 1704103200000 - 15 * 60 * 1000, endTime := 1704103200000 } ∧
    (getUploadDetailsFromCloudTrail
      (fun _ => Except.ok
        [ { requestParameters := some { bucketName := some "other", key := some "other.txt" },
            userIdentity := { arn := some "arn:aws:iam::123:user/bob", principalId := some "AIDB" },
            sourceIPAddress := some "198.51.100.7", eventTime := some 1704102900000 },
          { requestParameters := some { bucketName := some "uploads", key := some "reports/malicious_invoice.pdf" },
            userIdentity := { arn := some "arn:aws:iam::123:user/alice", principalId := some "AIDA" },
            sourceIPAddress := some "203.0.113.5", eventTime := some 1704103000000 } ])
      "uploads" "reports/malicious_invoice.pdf" 1704103200000).2 =
      eventDetails
        { requestParameters := some { bucketName := some "uploads", key := some "reports/malicious_invoice.pdf" },
          userIdentity := { arn := some "arn:aws:iam::123:user/alice", principalId := some "AIDA" },
          sourceIPAddress := some "203.0.113.5", eventTime := some 1704103000000 } := by
  have h := lookup_window_and_first_match
    (fun _ => Except.ok
      [ { requestParameters := some { bucketName := some "other", key := some "other.txt" },
          userIdentity := { arn := some "arn:aws:iam::123:user/bob", principalId := some "AIDB" },
          sourceIPAddress := some "198.51.100.7", eventTime := some 1704102900000 },
        { requestParameters := some { bucketName := some "uploads", key := some "reports/malicious_invoice.pdf" },
          userIdentity := { arn := some "arn:aws:iam::123:user/alice", principalId := some "AIDA" },
          sourceIPAddress := some "203.0.113.5", eventTime := some 1704103000000 } ])
    "uploads" "reports/malicious_invoice.pdf" 1704103200000
    [ { requestParameters := some { bucketName := some "other", key := some "other.txt" },
        userIdentity := { arn := some "arn:aws:iam::123:user/bob", principalId := some "AIDB" },
        sourceIPAddress := some "198.51.100.7", eventTime := some 1704102900000 },
      { requestParameters := some { bucketName := some "uploads", key := some "reports/malicious_invoice.pdf" },
        userIdentity := { arn := some "arn:aws:iam::123:user/alice", principalId := some "AIDA" },
        sourceIPAddress := some "203.0.113.5", eventTime := some 1704103000000 } ]
    rfl
  refine ⟨h.1, ?_⟩
  have h2 := h.2 ⟨1, by decide⟩ (by decide) (by decide)
  exact h2

/-- jsOrStr is defined (not undefined) when its first argument is a non-empty
string or its second argument is defined. -/
theorem jsOrStr_ne_none (a b : Option String)
    (h : (∃ s, a = some s ∧ s ≠ "") ∨ b ≠ none) : jsOrStr a b ≠ none := by
  rcases h with ⟨s, ha, hs⟩ | hb
  · subst ha
    simp [jsOrStr, hs]
  · cases a with
    | none => simpa [jsOrStr] using hb
    | some s =>
      by_cases hs : s = ""
      · simpa [jsOrStr, hs] using hb
      · simp [jsOrStr, hs]

/-- C9 counterexample: a matched audit event whose userIdentity has neither an
arn nor a principalId yields an UploadIdentity whose actor field is undefined
(none), so the structure produced by the correlator is not always fully
populated. -/
theorem identity_missing_identifiers_cex :
    (getUploadDetailsFromCloudTrail
      (fun _ => Except.ok
        [ { requestParameters := some { bucketName := some "uploads", key := some "reports/malicious_invoice.pdf" },
            userIdentity := { arn := none, principalId := none },
            sourceIPAddress := some "203.0.113.5", eventTime := some 1704103000000 } ])
      "uploads" "reports/malicious_invoice.pdf" 1704103200000).2.user = none := by
  rfl

/-- C9 amended: every UploadIdentity produced by the correlator has all three
fields defined provided the found event — the first matching one, the only one
the correlator reads — supplies them: the actor requires that event's
userIdentity to carry a non-empty arn or a principalId, and its
sourceIPAddress and eventTime must be present; when no event matches or the
query fails, the sentinel is fully populated unconditionally.  Later matching
events are irrelevant, and a found event lacking both identifiers yields an
undefined actor (a missing sourceIPAddress or eventTime likewise surfaces as
undefined). -/
theorem identity_fields_defined_of_event_fields_present
    (lookupO : LookupQuery → Except JsError (List CloudTrailEvent))
    (bucket key : String) (t : Int)
    (h : ∀ evs e, lookupO (mkLookupQuery t) = Except.ok evs →
         evs.find? (matchesObject bucket key) = some e →
           ((∃ s, e.userIdentity.arn = some s ∧ s ≠ "") ∨ e.userIdentity.principalId ≠ none) ∧
           e.sourceIPAddress ≠ none ∧ e.eventTime ≠ none) :
    (getUploadDetailsFromCloudTrail lookupO bucket key t).2.user ≠ none ∧
    (getUploadDetailsFromCloudTrail lookupO bucket key t).2.ipAddress ≠ none ∧
    (getUploadDetailsFromCloudTrail lookupO bucket key t).2.uploadTime ≠ none := by
  cases hq : lookupO (mkLookupQuery t) with
  | error e =>
    simp [getUploadDetailsFromCloudTrail, hq, sentinelIdentity]
  | ok evs =>
    cases hfind : evs.find? (matchesObject bucket key) with
    | none =>
      simp [getUploadDetailsFromCloudTrail, hq, lookupResult, hfind, sentinelIdentity]
    | some e =>
      have he := h evs e hq hfind
      have huser : jsOrStr e.userIdentity.arn e.userIdentity.principalId ≠ none :=
        jsOrStr_ne_none _ _ he.1
      simp only [getUploadDetailsFromCloudTrail, hq, lookupResult, hfind]
      exact ⟨huser, he.2.1, he.2.2⟩

/-- C9 amended witness: a concrete multi-match run — the first matching event
carries an arn, an IP and a timestamp, while a second matching event lacks all
of them — still yields a fully defined identity, since only the found first
match is read. -/
theorem identity_fields_defined_witness :
    (getUploadDetailsFromCloudTrail
      (fun _ => Except.ok
        [ { requestParameters := some { bucketName := some "uploads", key := some "reports/malicious_invoice.pdf" },
            userIdentity := { arn := some "arn:aws:iam::123:user/alice", principalId := some "AIDA" },
            sourceIPAddress := some "203.0.113.5", eventTime := some 1704103000000 },
          { requestParameters := some { bucketName := some "uploads", key := some "reports/malicious_invoice.pdf" },
            userIdentity := { arn := none, principalId := none },
            sourceIPAddress := none, eventTime := none } ])
      "uploads" "reports/malicious_invoice.pdf" 1704103200000).2.user ≠ none ∧
    (getUploadDetailsFromCloudTrail
      (fun _ => Except.ok
        [ { requestParameters := some { bucketName := some "uploads", key := some "reports/malicious_invoice.pdf" },
            userIdentity := { arn := some "arn:aws:iam::123:user/alice", principalId := some "AIDA" },
            sourceIPAddress := some "203.0.113.5", eventTime := some 1704103000000 },
          { requestParameters := some { bucketName := some "uploads", key := some "reports/malicious_invoice.pdf" },
            userIdentity := { arn := none, principalId := none },
            sourceIPAddress := none, eventTime := none } ])
      "uploads" "reports/malicious_invoice.pdf" 1704103200000).2.ipAddress ≠ none ∧
    (getUploadDetailsFromCloudTrail
      (fun _ => Except.ok
        [ { requestParameters := some { bucketName := some "uploads", key := some "reports/malicious_invoice.pdf" },
            userIdentity := { arn := some "arn:aws:iam::123:user/alice", principalId := some "AIDA" },
            sourceIPAddress := some "203.0.113.5", eventTime := some 1704103000000 },
          { requestParameters := some { bucketName := some "uploads", key := some "reports/malicious_invoice.pdf" },
            userIdentity := { arn := none, principalId := none },
            sourceIPAddress := none, eventTime := none } ])
      "uploads" "reports/malicious_invoice.pdf" 1704103200000).2.uploadTime ≠ none :=
  identity_fields_defined_of_event_fields_present
    (fun _ => Except.ok
      [ { requestParameters := some { bucketName := some "uploads", key := some "reports/malicious_invoice.pdf" },
          userIdentity := { arn := some "arn:aws:iam::123:user/alice", principalId := some "AIDA" },
          sourceIPAddress := some "203.0.113.5", eventTime := some 1704103000000 },
        { requestParameters := some { bucketName := some "uploads", key := some "reports/malicious_invoice.pdf" },
          userIdentity := { arn := none, principalId := none },
          sourceIPAddress := none, eventTime := none } ])
    "uploads" "reports/malicious_invoice.pdf" 1704103200000
    (by
      intro evs e hevs hfind
      cases hevs
      rw [show List.find? (matchesObject "uploads" "reports/malicious_invoice.pdf")
          [ { requestParameters := some { bucketName := some "uploads", key := some "reports/malicious_invoice.pdf" },
              userIdentity := { arn := some "arn:aws:iam::123:user/alice", principalId := some "AIDA" },
              sourceIPAddress := some "203.0.113.5", eventTime := some 1704103000000 },
            { requestParameters := some { bucketName := some "uploads", key := some "reports/malicious_invoice.pdf" },
              userIdentity := { arn := none, principalId := none },
              sourceIPAddress := none, eventTime := none } ] =
          some { requestParameters := some { bucketName := some "uploads", key := some "reports/malicious_invoice.pdf" },
                 userIdentity := { arn := some "arn:aws:iam::123:user/alice", principalId := some "AIDA" },
                 sourceIPAddress := some "203.0.113.5", eventTime := some 1704103000000 } from by decide] at hfind
      cases hfind
      exact ⟨Or.inl ⟨"arn:aws:iam::123:user/alice", rfl, by decide⟩, by decide, by decide⟩)
